import Mathlib

/-!
Verification model of the TSV-repair heuristic and batch-builder scripts of the
extraire-tesseract-openai repository.

The Python sources are shallowly embedded as total Lean functions:

* `repair.py` (batch-gemini-image-text-production): `repair_line`, `read_tsv`,
  `DEFAULT_HEADERS`, `looks_like_header`, the `NOTES_REGEXES` and
  `HORAIRES_PATTERNS` regular expressions.
* `build-batch-file.py` (batch): the per-row request construction of `main`.
* `build-gemini-image-text-batch-file.py`: the per-row request construction.
* `upload_gemini_images.py`: the row scan and upload accounting of `main`.

Python strings are Lean `String`s; Python `dict` built by `dict(zip(..))` is
modelled by `pyDict` (insertion order, last value wins); the `re` patterns that
the repair heuristic uses are modelled by a small backtracking regex engine
(`Reg`, `mrun`, `rsearch`) whose character classes reproduce the exact
characters found in the source file (the source literals are double-encoded
UTF-8, e.g. the class `[Ă´o0]` and the header name "annĂ©e"; the model keeps
those literal characters).  Filesystem and network effects are abstracted into
function parameters (`findImg`, `existing`, upload `success` oracles); an
`assert` is modelled by returning `none`.
-/

namespace Pipeline

/-- Python `str.isspace`/`str.strip`/`re \s` whitespace, over the characters
relevant to this code base (ASCII whitespace, the C1 separators, NBSP and the
Unicode space block). -/
def pyIsSpace (c : Char) : Bool :=
  c == ' ' || c == '\t' || c == '\n' || c == '\r' || c.val == 11 || c.val == 12 ||
  (28 ≤ c.val && c.val ≤ 31) || c.val == 133 || c.val == 160 || c.val == 0x1680 ||
  (0x2000 ≤ c.val && c.val ≤ 0x200A) || c.val == 0x2028 || c.val == 0x2029 ||
  c.val == 0x202F || c.val == 0x205F || c.val == 0x3000

/-- Python `str.lower` on one character, restricted to the ranges inhabited by
the literals of this repository: ASCII, Latin-1 and the beginning of Latin
Extended-A (so that U+0102 Ă lowers to U+0103 ă, as Python does). -/
def pyLowerChar (c : Char) : Char :=
  if 65 ≤ c.toNat && c.toNat ≤ 90 then Char.ofNat (c.toNat + 32)
  else if 0xC0 ≤ c.toNat && c.toNat ≤ 0xDE && c.toNat != 0xD7 then Char.ofNat (c.toNat + 32)
  else if 0x100 ≤ c.toNat && c.toNat ≤ 0x137 && c.toNat % 2 == 0 then Char.ofNat (c.toNat + 1)
  else c

/-- Python `str.lower`. -/
def pyLower (s : String) : String := ⟨s.data.map pyLowerChar⟩

/-- Strip `pyIsSpace` characters from both ends of a character list. -/
def pyStripList (l : List Char) : List Char :=
  ((l.dropWhile pyIsSpace).reverse.dropWhile pyIsSpace).reverse

/-- Python `str.strip()`. -/
def pyStrip (s : String) : String := ⟨pyStripList s.data⟩

/-- Python `str.split("\t")` on a character list: split at every tab, keeping
empty pieces. -/
def splitTabList : List Char → List (List Char)
  | [] => [[]]
  | c :: cs =>
    if c = '\t' then [] :: splitTabList cs
    else
      match splitTabList cs with
      | [] => [[c]]
      | t :: ts => (c :: t) :: ts

/-- Python `str.split("\t")`. -/
def pySplitTab (s : String) : List String := (splitTabList s.data).map (fun l => ⟨l⟩)

/-- Python `str.count("\t")`. -/
def countTab (s : String) : Nat := s.data.count '\t'

/-- Python `[part.strip() for part in raw_line.split("\t") if part.strip()]`
(repair.py line 138). -/
def tokens (raw : String) : List String :=
  ((pySplitTab raw).map pyStrip).filter (fun t => t ≠ "")

/-! ### A small regular-expression engine

Just enough of Python `re` for the patterns of repair.py: character classes,
sequencing, alternation, `?`, `*` over a character class, and the word
boundary `\b`.  Matching is full backtracking, so optional pieces behave as in
Python; only the answer of `re.search` (does a match exist) is modelled. -/

/-- Regular expressions: empty word, one character from a class, sequencing,
alternation, option, Kleene star of a character class, word boundary. -/
inductive Reg where
  | emp : Reg
  | cls : (Char → Bool) → Reg
  | seq : Reg → Reg → Reg
  | alt : Reg → Reg → Reg
  | opt : Reg → Reg
  | starCls : (Char → Bool) → Reg
  | bnd : Reg

/-- Python `re` word character (`\w`), over ASCII, Latin-1 and Latin
Extended-A — the ranges the source literals inhabit. -/
def pyIsWordChar (c : Char) : Bool :=
  c.isAlphanum || c == '_' || c.val == 0xAA || c.val == 0xB5 || c.val == 0xBA ||
  (0xC0 ≤ c.val && c.val ≤ 0xFF && c.val != 0xD7 && c.val != 0xF7) ||
  (0x100 ≤ c.val && c.val ≤ 0x17F)

/-- Word-character test on the character just before the current position. -/
def isWordOpt : Option Char → Bool
  | none => false
  | some c => pyIsWordChar c

/-- Word-character test on the next character of the remaining input. -/
def headIsWord : List Char → Bool
  | [] => false
  | c :: _ => pyIsWordChar c

/-- Backtracking run of `starCls`: try the continuation at every number of
consumed class characters. -/
def starRun (f : Char → Bool) : Option Char → List Char → (Option Char → List Char → Bool) → Bool
  | p, [], k => k p []
  | p, c :: cs, k => k p (c :: cs) || (f c && starRun f (some c) cs k)

/-- Backtracking matcher in continuation style: `mrun r p s k` holds when some
prefix of `s` matches `r` and `k` accepts the rest (`p` is the character just
before `s`, for word boundaries). -/
def mrun : Reg → Option Char → List Char → (Option Char → List Char → Bool) → Bool
  | .emp, p, s, k => k p s
  | .cls f, _, s, k =>
    match s with
    | [] => false
    | c :: cs => f c && k (some c) cs
  | .seq r1 r2, p, s, k => mrun r1 p s (fun q t => mrun r2 q t k)
  | .alt r1 r2, p, s, k => mrun r1 p s k || mrun r2 p s k
  | .opt r, p, s, k => mrun r p s k || k p s
  | .starCls f, p, s, k => starRun f p s k
  | .bnd, p, s, k => (isWordOpt p != headIsWord s) && k p s

/-- Try a match at every start position, as `re.search` does. -/
def searchFrom (r : Reg) : Option Char → List Char → Bool
  | p, [] => mrun r p [] (fun _ _ => true)
  | p, c :: cs => mrun r p (c :: cs) (fun _ _ => true) || searchFrom r (some c) cs

/-- Python `pattern.search(s) is not None`. -/
def rsearch (r : Reg) (s : String) : Bool := searchFrom r none s.data

/-- One character, case-insensitively (for patterns compiled with
`re.IGNORECASE`). -/
def chCI (c : Char) : Reg := .cls (fun x => pyLowerChar x == pyLowerChar c)

/-- One character, case-sensitively. -/
def chCS (c : Char) : Reg := .cls (fun x => x == c)

/-- Character class under `re.IGNORECASE`; the members are given lowered. -/
def clsCI (l : List Char) : Reg := .cls (fun x => l.contains (pyLowerChar x))

/-- Literal word, case-insensitively. -/
def strCI (s : String) : Reg := s.data.foldr (fun c r => Reg.seq (chCI c) r) .emp

/-- Literal word, case-sensitively. -/
def strCS (s : String) : Reg := s.data.foldr (fun c r => Reg.seq (chCS c) r) .emp

/-- Sequencing of a list of regexes. -/
def rcat (l : List Reg) : Reg := l.foldr .seq .emp

/-- Alternation of a list of regexes (empty list never matches). -/
def raltL (l : List Reg) : Reg := l.foldr .alt (.cls (fun _ => false))

/-- Pattern `\s*`. -/
def ws : Reg := .starCls pyIsSpace

/-- Pattern `\s+`. -/
def wsPlus : Reg := .seq (.cls pyIsSpace) ws

/-- Pattern `\.?`. -/
def optDot : Reg := .opt (chCS '.')

/-- Pattern `\d` (ASCII digits; the year patterns of this code base only meet
ASCII digits). -/
def dig : Reg := .cls Char.isDigit

/-! ### The patterns of repair.py

The character literals below reproduce the bytes of the source file exactly.
The source file is double-encoded UTF-8 ("mojibake"): where the author meant
`ô` the file holds the two characters `Ă` (U+0102) and `´` (U+00B4), where the
author meant `é` it holds `Ă` `©` (U+00A9), where it meant `à` it holds `Ă`
followed by a no-break space (U+00A0), where it meant `½` it holds `Â` `˝`
(U+00C2, U+02DD), and where it meant `’` it holds `â` `€` `™`.  The model keeps
the file's literal characters, because they are what the compiled Python
patterns match. -/

/-- Optional group `(?:d[eu]s?\s*)?` shared by the hospital patterns. -/
def desOpt : Reg := .opt (rcat [chCI 'd', clsCI ['e', 'u'], .opt (chCI 's'), ws])

/-- Tail `H[Ă´o0]p\.?\b` shared by the hospital patterns (class members given
lowered: `Ă` lowers to `ă`). -/
def hopTail : Reg := rcat [chCI 'h', clsCI ['ă', '´', 'o', '0'], chCI 'p', optDot, .bnd]

/-- Class `[Ă©e]` of the accented patterns, lowered. -/
def aeCls : Reg := clsCI ['ă', '©', 'e']

/-- Pattern `HORAIRES_PATTERNS` of repair.py lines 99-106 (no IGNORECASE):
day abbreviations, `\b\d{1,2}(?:\s*[Â˝1/2])?\s*Ă\xa0\s*\d{1,2}(?:\s*[Â˝1/2])?\b`,
`\bmidi\b`, `\bsoir\b`. -/
def HORAIRES_PATTERNS : Reg :=
  raltL [
    rcat [.bnd, raltL [strCS "Lun", strCS "Mar", strCS "Mer", strCS "Jeu",
                       strCS "Ven", strCS "Sam", strCS "Dim"], .bnd],
    rcat [.bnd, dig, .opt dig,
          .opt (rcat [ws, .cls (fun c => c == 'Â' || c == '˝' || c == '1' || c == '/' || c == '2')]),
          ws, chCS 'Ă', chCS (Char.ofNat 0xA0), ws, dig, .opt dig,
          .opt (rcat [ws, .cls (fun c => c == 'Â' || c == '˝' || c == '1' || c == '/' || c == '2')]),
          .bnd],
    rcat [.bnd, strCS "midi", .bnd],
    rcat [.bnd, strCS "soir", .bnd]]

/-- Patterns `NOTES_REGEXES` of repair.py lines 108-130, all compiled with
`re.IGNORECASE`, in declaration order. -/
def NOTES_REGEXES : List Reg :=
  [ -- \bA\s*cc?\.?\s*(?:d[eu]s?\s*)?H[Ă´o0]p\.?\b
    rcat [.bnd, chCI 'a', ws, chCI 'c', .opt (chCI 'c'), optDot, ws, desOpt, hopTail],
    -- \bM\.?\s*(?:d[eu]s?\s*)?H[Ă´o0]p\.?\b
    rcat [.bnd, chCI 'm', optDot, ws, desOpt, hopTail],
    -- \bCh?\.?\s*(?:d[eu]s?\s*)?H[Ă´o0]p\.?\b
    rcat [.bnd, chCI 'c', .opt (chCI 'h'), optDot, ws, desOpt, hopTail],
    -- \bAgr[Ă©e]?(?:g[Ă©e])?\.?\b
    rcat [.bnd, strCI "agr", .opt aeCls, .opt (rcat [chCI 'g', aeCls]), optDot, .bnd],
    -- \bP\.?\s*F\.?\s*P\.?\b
    rcat [.bnd, chCI 'p', optDot, ws, chCI 'f', optDot, ws, chCI 'p', optDot, .bnd],
    -- \bM\.?\s*A\.?\s*M\.?\b
    rcat [.bnd, chCI 'm', optDot, ws, chCI 'a', optDot, ws, chCI 'm', optDot, .bnd],
    -- \bM\.?\s*A\.?\s*S\.?\b
    rcat [.bnd, chCI 'm', optDot, ws, chCI 'a', optDot, ws, chCI 's', optDot, .bnd],
    -- \bEx[\-\s]*(?:ou\s+anc\.?\s*)?(?:Int|Intern[ei])\.?\s*d[eu]s?\s*H[Ă´o0]p\.?\b
    rcat [.bnd, chCI 'e', chCI 'x', .starCls (fun c => c == '-' || pyIsSpace c),
          .opt (rcat [strCI "ou", wsPlus, strCI "anc", optDot, ws]),
          .alt (strCI "int") (rcat [strCI "intern", clsCI ['e', 'i']]),
          optDot, ws, chCI 'd', clsCI ['e', 'u'], .opt (chCI 's'), ws, hopTail],
    -- \bLaur?\.?\s*d[eu]\s*l[â€™']?Acad\.?\b
    rcat [.bnd, strCI "lau", .opt (chCI 'r'), optDot, ws, chCI 'd', clsCI ['e', 'u'], ws,
          chCI 'l', .opt (clsCI ['â', '€', '™', Char.ofNat 39]), strCI "acad", optDot, .bnd],
    -- \bDent?\.?\b
    rcat [.bnd, strCI "den", .opt (chCI 't'), optDot, .bnd],
    -- \bH[Ă´o0]p\.?\b
    rcat [.bnd, hopTail],
    -- \bM[Ă©e]d\.?\b
    rcat [.bnd, chCI 'm', aeCls, chCI 'd', optDot, .bnd],
    -- \bChir?\.?\b
    rcat [.bnd, strCI "chi", .opt (chCI 'r'), optDot, .bnd],
    -- \bProf?\.?\b
    rcat [.bnd, strCI "pro", .opt (chCI 'f'), optDot, .bnd],
    -- \bPros?\.?\b
    rcat [.bnd, strCI "pro", .opt (chCI 's'), optDot, .bnd],
    -- \bPr[Ă©e]p\.?\b
    rcat [.bnd, strCI "pr", aeCls, chCI 'p', optDot, .bnd],
    -- \bClin?\.?\b
    rcat [.bnd, strCI "cli", .opt (chCI 'n'), optDot, .bnd],
    -- \bMal\.?\b
    rcat [.bnd, strCI "mal", optDot, .bnd]]

/-- Disjunction of a regex list on one fragment, as
`any(regex.search(fragment) for regex in ...)` computes it. -/
def anyMatch (rs : List Reg) (f : String) : Bool := rs.any (fun r => rsearch r f)

/-- Test of repair.py line 165 with the declared `NOTES_REGEXES`. -/
def matchesNotes (f : String) : Bool := anyMatch NOTES_REGEXES f

/-! ### The repair heuristic (repair.py `repair_line`) -/

/-- Leftmost run of four consecutive digits of a character list, as
`re.search(r"(\d{4})", fragment)` finds it: the first position at which four
digits start wins. -/
def extractYear : List Char → Option String
  | [] => none
  | c :: cs =>
    match cs with
    | c2 :: c3 :: c4 :: _ =>
      if c.isDigit && c2.isDigit && c3.isDigit && c4.isDigit then some ⟨[c, c2, c3, c4]⟩
      else extractYear cs
    | _ => none

/-- Year scan of repair.py lines 145-151: the first fragment containing a
four-digit substring yields the year, and that fragment is deleted from the
pool (`del remaining[idx]; break`). -/
def findFirstYear : List String → Option (String × List String)
  | [] => none
  | f :: fs =>
    match extractYear f.data with
    | some y => some (y, fs)
    | none =>
      match findFirstYear fs with
      | some (y, rest) => some (y, f :: rest)
      | none => none

/-- Hours scan of repair.py lines 153-159: walk the pool from the end, take the
first fragment (from the right) matching `HORAIRES_PATTERNS`, delete it. -/
def extractLastHoraires : List String → Option (String × List String)
  | [] => none
  | f :: fs =>
    match extractLastHoraires fs with
    | some (h, rest) => some (h, f :: rest)
    | none => if rsearch HORAIRES_PATTERNS f then some (f, fs) else none

/-- Characters before the first `,`, as `fragment.partition(",")` yields them. -/
def beforeComma : List Char → List Char
  | [] => []
  | c :: cs => if c = ',' then [] else c :: beforeComma cs

/-- Characters after the first `,`, as `fragment.partition(",")` yields them. -/
def afterComma : List Char → List Char
  | [] => []
  | c :: cs => if c = ',' then cs else afterComma cs

/-- Python `"," in fragment`. -/
def hasComma (f : String) : Bool := f.data.contains ','

/-- Notes/address classification of repair.py lines 161-175, for an arbitrary
match predicate `p`: a matching fragment with a comma is split at its first
comma (stripped note part; stripped address part kept only when non-empty), a
matching fragment without a comma is a notes fragment wholesale, a
non-matching fragment is an address fragment.  Returns
(notes segments, address segments) in scan order. -/
def classifyGo (p : String → Bool) : List String → List String × List String
  | [] => ([], [])
  | f :: fs =>
    let rest := classifyGo p fs
    if p f then
      if hasComma f then
        let notePart := pyStrip ⟨beforeComma f.data⟩
        let addrPart := pyStrip ⟨afterComma f.data⟩
        (notePart :: rest.1, if addrPart ≠ "" then addrPart :: rest.2 else rest.2)
      else (f :: rest.1, rest.2)
    else (rest.1, f :: rest.2)

/-- Python `", ".join(segments)`. -/
def joinComma (l : List String) : String := String.intercalate ", " l

/-- Five assembled field values `[nom, annee, notes, adresse, horaires]` of
repair.py lines 142-180, computed with the regex list `rs` in the
classification step (the list is `NOTES_REGEXES` in the source; it is a
parameter here so that reorderings can be stated).  Meaningful only when
`tokens raw` is non-empty, which `repair_line` checks first. -/
def repairFieldsWith (rs : List Reg) (raw : String) : List String :=
  match tokens raw with
  | [] => []
  | nom :: remaining0 =>
    let yr := findFirstYear remaining0
    let annee := match yr with | some (y, _) => y | none => ""
    let remaining1 := match yr with | some (_, rest) => rest | none => remaining0
    let hr := extractLastHoraires remaining1
    let horaires := match hr with | some (h, _) => h | none => ""
    let remaining2 := match hr with | some (_, rest) => rest | none => remaining1
    let cl := classifyGo (anyMatch rs) remaining2
    [nom, annee, joinComma cl.1, joinComma cl.2, horaires]

/-- Field assembly of repair.py lines 180-184: `fields` is extended with empty
strings when its length differs from the header length (a no-op extension when
the header is shorter, since Python `[""] * negative` is empty), and the dead
`elif` truncation branch is kept as in the source. -/
def adjustFields (fields : List String) (h : Nat) : List String :=
  if fields.length ≠ h then fields ++ List.replicate (h - fields.length) ""
  else if fields.length > h then fields.take h
  else fields

/-- A parsed record: Python's insertion-ordered `dict` as an association list. -/
abbrev Record := List (String × String)

/-- One `d[k] = v` step on an insertion-ordered dict: an existing key keeps its
position and takes the new value, a new key is appended. -/
def pyUpdate (acc : Record) (kv : String × String) : Record :=
  if acc.any (fun e => e.1 == kv.1) then
    acc.map (fun e => if e.1 == kv.1 then (e.1, kv.2) else e)
  else acc ++ [kv]

/-- Python `dict(pairs)` over an insertion-ordered association list. -/
def pyDict (ps : List (String × String)) : Record := ps.foldl pyUpdate []

/-- The `repair_line` of repair.py lines 133-186 with an explicit regex list:
`None` when the headers are empty or no non-empty token remains, otherwise the
record `dict(zip(headers, fields))` for the assembled, padded fields. -/
def repairLineWith (rs : List Reg) (raw : String) (headers : List String) : Option Record :=
  if headers.isEmpty then none
  else if (tokens raw).isEmpty then none
  else some (pyDict (headers.zip (adjustFields (repairFieldsWith rs raw) headers.length)))

/-- Function `repair_line(raw_line, headers)` of repair.py. -/
def repair_line (raw : String) (headers : List String) : Option Record :=
  repairLineWith NOTES_REGEXES raw headers

/-! ### The TSV reader (repair.py `read_tsv`) -/

/-- Headers `DEFAULT_HEADERS` of repair.py line 43 (the source literal is the
double-encoded "annĂ©e"). -/
def DEFAULT_HEADERS : List String := ["nom", "annĂ©e", "notes", "adresse", "horaires"]

/-- Predicate `_looks_like_header` of repair.py lines 46-48: some field, stripped and
lowered, is one of the five header-name literals. -/
def looks_like_header (headers : List String) : Bool :=
  headers.any (fun h => DEFAULT_HEADERS.contains (pyLower (pyStrip h)))

/-- Characters at which Python `str.splitlines` breaks. -/
def pyIsLineBreak (c : Char) : Bool :=
  c == '\n' || c == '\r' || c.val == 11 || c.val == 12 || c.val == 28 ||
  c.val == 29 || c.val == 30 || c.val == 133 || c.val == 0x2028 || c.val == 0x2029

/-- Collapse of every `"\r\n"` pair to a single `'\r'`, so that the line
splitter can treat every break character uniformly. -/
def collapseCRLF : List Char → List Char
  | [] => []
  | '\r' :: '\n' :: cs => '\r' :: collapseCRLF cs
  | c :: cs => c :: collapseCRLF cs

/-- Worker for `pySplitlines` on CRLF-collapsed text (accumulates the current
line reversed; no trailing empty line). -/
def splitlinesGo : List Char → List Char → List (List Char)
  | acc, [] => if acc.isEmpty then [] else [acc.reverse]
  | acc, c :: cs =>
    if pyIsLineBreak c then acc.reverse :: splitlinesGo [] cs
    else splitlinesGo (c :: acc) cs

/-- Python `str.splitlines()` (a `"\r\n"` pair is one break). -/
def pySplitlines (s : String) : List String :=
  (splitlinesGo [] (collapseCRLF s.data)).map (fun l => ⟨l⟩)

/-- Python `encoding="utf-8-sig"`: a leading byte-order mark is dropped. -/
def stripBOM (s : String) : String :=
  match s.data with
  | c :: cs => if c.val == 0xFEFF then ⟨cs⟩ else s
  | [] => s

/-- States of Python's `csv` line parser (excel dialect, tab delimiter). -/
inductive CsvSt where
  | sf : CsvSt
  | inf : CsvSt
  | inq : CsvSt
  | qq : CsvSt

/-- Python `csv.reader` state machine on one line: `sf` at field start, `inf`
inside an unquoted field, `inq` inside a quoted field, `qq` after a quote
inside a quoted field; `acc` holds the current field reversed. -/
def csvGo : CsvSt → List Char → List Char → List String
  | _, acc, [] => [⟨acc.reverse⟩]
  | .sf, acc, c :: cs =>
    if c.val == 34 then csvGo .inq acc cs
    else if c = '\t' then (⟨acc.reverse⟩ : String) :: csvGo .sf [] cs
    else csvGo .inf (c :: acc) cs
  | .inf, acc, c :: cs =>
    if c = '\t' then (⟨acc.reverse⟩ : String) :: csvGo .sf [] cs
    else csvGo .inf (c :: acc) cs
  | .inq, acc, c :: cs =>
    if c.val == 34 then csvGo .qq acc cs
    else csvGo .inq (c :: acc) cs
  | .qq, acc, c :: cs =>
    if c.val == 34 then csvGo .inq (c :: acc) cs
    else if c = '\t' then (⟨acc.reverse⟩ : String) :: csvGo .sf [] cs
    else csvGo .inf (c :: acc) cs

/-- Python `next(csv.reader([line], delimiter="\t"))`.  CPython's reader
yields exactly one row for the single line it is given: the empty row `[]`
for a blank line, and a row of at least one field otherwise — so the
`StopIteration` guard of repair.py lines 59-62 is unreachable when the file
has a first line at all. -/
def csvParseLine (s : String) : List String :=
  if s.data.isEmpty then [] else csvGo .sf [] s.data

/-- A tab-mismatch diagnostic of repair.py: (line number, tab count, raw line,
repaired successfully). -/
abbrev Issue := Nat × Nat × String × Bool

/-- Count `expected_tabs = max(len(headers) - 1, 0)` of repair.py line 76. -/
def expectedTabsOf (headers : List String) : Nat := max (headers.length - 1) 0

/-- Processing of one data line of repair.py lines 78-94, as the pair (records
contributed, issues contributed); `none` models a failing `assert`. -/
def stepLine (headers : List String) (offset : Nat) (raw : String) :
    Option (List Record × List Issue) :=
  if pyStrip raw = "" then some ([], [])
  else if countTab raw = expectedTabsOf headers then
    let values := pySplitTab raw
    if values.length = headers.length then some ([pyDict (headers.zip values)], [])
    else none
  else
    match repair_line raw headers with
    | some r => some ([r], [(offset, countTab raw, raw, true)])
    | none => some ([], [(offset, countTab raw, raw, false)])

/-- The data-line loop of repair.py lines 78-94. -/
def processDataLines (headers : List String) : Nat → List String → Option (List Record × List Issue)
  | _, [] => some ([], [])
  | offset, raw :: rest =>
    match stepLine headers offset raw with
    | none => none
    | some (rs, iss) =>
      match processDataLines headers (offset + 1) rest with
      | none => none
      | some (rs2, iss2) => some (rs ++ rs2, iss ++ iss2)

/-- Header selection of repair.py lines 64-72: when the first line does not
look like a header and parses to exactly `len(DEFAULT_HEADERS)` columns, the
default headers are substituted and the first line becomes a data line
(numbered from 1); otherwise the parsed first line is the header and the rest
are data lines (numbered from 2). -/
def headerChoice (l0 : String) (rest : List String) : List String × List String × Nat :=
  if (!looks_like_header (csvParseLine l0)) && (csvParseLine l0).length == DEFAULT_HEADERS.length then
    (DEFAULT_HEADERS, l0 :: rest, 1)
  else (csvParseLine l0, rest, 2)

/-- Function `read_tsv` of repair.py lines 51-96, on the decoded file text: `none`
models a failing `assert`, `some (headers, rows, issues)` a normal return.
A file with no lines returns empty results (line 56); otherwise the first
line is parsed by the csv reader — an empty first line parses to zero
columns, so the fallback does not fire and the loop runs with an empty
header list (the `StopIteration` early return of lines 61-62 is dead code,
since the reader always yields one row per given line). -/
def read_tsv (text : String) : Option (List String × List Record × List Issue) :=
  match pySplitlines (stripBOM text) with
  | [] => some ([], [], [])
  | l0 :: rest =>
    (processDataLines (headerChoice l0 rest).1 (headerChoice l0 rest).2.2
      (headerChoice l0 rest).2.1).map (fun p => ((headerChoice l0 rest).1, p.1, p.2))

/-! ### Batch builders and the image uploader

One benchmark row carries the `year`, `page` and `text` columns as strings
(rows whose columns are all present, the case the claims concern).  Filesystem
lookups (`find_image`) and upload outcomes are oracle parameters. -/

/-- One row of a benchmark TSV. -/
structure BRow where
  year : String
  page : String
  text : String

/-- Text normalisation of build-batch-file.py lines 85-89: the literal
two-character sequences `\n` and `\t` become real control characters. -/
def normalizeText (t : String) : String :=
  (t.replace "\\n" "\n").replace "\\t" "\t"

/-- Request construction of build-batch-file.py `main` lines 75-101: a row with
an empty stripped year or page is skipped, otherwise a request with
`custom_id = year-page` and the normalised text is appended. -/
def buildBatchRequests (rows : List BRow) : List (String × String) :=
  rows.filterMap (fun r =>
    let year := pyStrip r.year
    let page := pyStrip r.page
    if year = "" || page = "" then none
    else some (year ++ "-" ++ page, normalizeText r.text))

/-- The only tally build-batch-file.py prints at the end (line 108):
`len(requests)`. -/
def buildBatchSummary (rows : List BRow) : Nat := (buildBatchRequests rows).length

/-- Row loop of build-gemini-image-text-batch-file.py `main` lines 180-224:
rows with empty year or page are skipped; for the others the `custom_id` is
formed, a missing image sends the id to the missing list, and a found image
yields a request.  Returns (requests as (custom id, image path), missing-image
ids, missing-text count). -/
def geminiBuild (findImg : String → String → Option String) :
    List BRow → List (String × String) × List String × Nat
  | [] => ([], [], 0)
  | r :: rs =>
    let rest := geminiBuild findImg rs
    let year := pyStrip r.year
    let page := pyStrip r.page
    if year = "" || page = "" then rest
    else
      let cid := year ++ "-" ++ page
      let mt := if pyStrip (normalizeText r.text) = "" then 1 else 0
      match findImg year page with
      | none => (rest.1, cid :: rest.2.1, mt + rest.2.2)
      | some p => ((cid, p) :: rest.1, rest.2.1, mt + rest.2.2)

/-- Row loop of upload_gemini_images.py `main` lines 140-160, with the default
`--limit` of `None`: every row gets `custom_id = year-page` (there is no
empty-year/page guard in this loop); a resumed id counts as skipped, a row
without an image lands in the missing list, every other row becomes an upload
future.  Returns (skipped count, missing-image ids, futures as
(custom id, image path)). -/
def uploaderScan (resume : Bool) (existing : String → Bool)
    (findImg : String → String → Option String) :
    List BRow → Nat × List String × List (String × String)
  | [] => (0, [], [])
  | r :: rs =>
    let year := pyStrip r.year
    let page := pyStrip r.page
    let cid := year ++ "-" ++ page
    let rest := uploaderScan resume existing findImg rs
    if resume && existing cid then (rest.1 + 1, rest.2.1, rest.2.2)
    else
      match findImg year page with
      | none => (rest.1, cid :: rest.2.1, rest.2.2)
      | some p => (rest.1, rest.2.1, (cid, p) :: rest.2.2)

/-- Upload phase of upload_gemini_images.py lines 165-185: each future either
succeeds (counted as uploaded) or raises (caught and counted as failed); the
`success` oracle abstracts the network outcome per custom id. -/
def uploadCounts (success : String → Bool) (futures : List (String × String)) : Nat × Nat :=
  ((futures.filter (fun f => success f.1)).length,
   (futures.filter (fun f => !success f.1)).length)

/-- The four tallies upload_gemini_images.py prints in its final summary
(lines 188-191): uploaded, skipped (resume), failed uploads, missing images. -/
def uploaderSummary (resume : Bool) (existing : String → Bool)
    (findImg : String → String → Option String) (success : String → Bool)
    (rows : List BRow) : Nat × Nat × Nat × Nat :=
  let scan := uploaderScan resume existing findImg rows
  let up := uploadCounts success scan.2.2
  (up.1, scan.1, up.2, scan.2.1.length)

/-! ### Supporting lemmas -/

theorem string_mk_data (l : List Char) : (⟨l⟩ : String).data = l := rfl

theorem string_eq_iff_data {s t : String} : s = t ↔ s.data = t.data := by
  constructor
  · intro h; rw [h]
  · intro h; cases s; cases t; exact congrArg String.mk h

theorem splitTabList_length (l : List Char) :
    (splitTabList l).length = l.count '\t' + 1 := by
  induction l with
  | nil => simp [splitTabList]
  | cons c cs ih =>
    by_cases h : c = '\t'
    · subst h; simp [splitTabList, List.count_cons, ih]
    · rw [splitTabList]
      simp only [if_neg h]
      cases hs : splitTabList cs with
      | nil => simp [hs] at ih
      | cons t ts =>
        simp only [List.length_cons]
        rw [hs] at ih
        simp only [List.length_cons] at ih
        have : cs.count '\t' = (c :: cs).count '\t' := by
          simp [List.count_cons, h]
        omega

theorem pySplitTab_length (s : String) :
    (pySplitTab s).length = countTab s + 1 := by
  simp [pySplitTab, countTab, splitTabList_length]

theorem splitTabList_ne_nil (l : List Char) : splitTabList l ≠ [] := by
  have := splitTabList_length l
  intro h
  rw [h] at this
  simp at this

theorem csvGo_ne_nil (st : CsvSt) (acc l : List Char) : csvGo st acc l ≠ [] := by
  induction l generalizing st acc with
  | nil => cases st <;> simp [csvGo]
  | cons c cs ih =>
    cases st <;> rw [csvGo] <;>
      repeat' first
        | exact ih _ _
        | split
        | simp only [ne_eq, List.cons_ne_nil, not_false_iff]

theorem csvParseLine_ne_nil (s : String) (h : s ≠ "") : csvParseLine s ≠ [] := by
  unfold csvParseLine
  have hd : s.data ≠ [] := fun hnil => h (string_eq_iff_data.mpr (by simpa using hnil))
  have hie : s.data.isEmpty = false := by simpa [List.isEmpty_iff] using hd
  rw [hie]
  simpa using csvGo_ne_nil CsvSt.sf [] s.data

theorem pyStripList_eq_nil_iff (l : List Char) :
    pyStripList l = [] ↔ ∀ c ∈ l, pyIsSpace c := by
  constructor
  · intro h c hc
    unfold pyStripList at h
    have h1 : (l.dropWhile pyIsSpace).reverse.dropWhile pyIsSpace = [] := by
      simpa using h
    have h2 : ∀ c ∈ l.dropWhile pyIsSpace, pyIsSpace c := by
      intro x hx
      exact List.dropWhile_eq_nil_iff.mp h1 x (by simpa using hx)
    have h3 : ∀ c ∈ l.takeWhile pyIsSpace, pyIsSpace c := fun x hx =>
      List.mem_takeWhile_imp hx
    have hsplit : l = l.takeWhile pyIsSpace ++ l.dropWhile pyIsSpace :=
      (List.takeWhile_append_dropWhile pyIsSpace l).symm
    rw [hsplit] at hc
    rcases List.mem_append.mp hc with h4 | h4
    · exact h3 c h4
    · exact h2 c h4
  · intro h
    unfold pyStripList
    have h1 : l.dropWhile pyIsSpace = [] := List.dropWhile_eq_nil_iff.mpr h
    simp [h1]

theorem mem_splitTabList (l : List Char) (c : Char) (hc : c ∈ l) :
    c = '\t' ∨ ∃ p ∈ splitTabList l, c ∈ p := by
  induction l with
  | nil => cases hc
  | cons a as ih =>
    by_cases ha : a = '\t'
    · subst ha
      rcases List.mem_cons.mp hc with h | h
      · exact Or.inl h
      · rcases ih h with h2 | ⟨p, hp, hcp⟩
        · exact Or.inl h2
        · exact Or.inr ⟨p, by simp [splitTabList, hp], hcp⟩
    · rw [splitTabList] at *
      simp only [if_neg ha]
      cases hs : splitTabList as with
      | nil => exact absurd hs (splitTabList_ne_nil as)
      | cons t ts =>
        rcases List.mem_cons.mp hc with h | h
        · subst h; exact Or.inr ⟨c :: t, by simp, by simp⟩
        · rcases ih h with h2 | ⟨p, hp, hcp⟩
          · exact Or.inl h2
          · rw [hs] at hp
            rcases List.mem_cons.mp hp with h3 | h3
            · subst h3; exact Or.inr ⟨a :: p, by simp, by simp [hcp]⟩
            · exact Or.inr ⟨p, by simp [h3], hcp⟩

theorem tokens_ne_nil_of_strip (raw : String) (h : pyStrip raw ≠ "") :
    tokens raw ≠ [] := by
  intro hnil
  apply h
  rw [string_eq_iff_data]
  show pyStripList raw.data = "".data
  have hempty : ("" : String).data = [] := rfl
  rw [hempty]
  rw [pyStripList_eq_nil_iff]
  intro c hc
  rcases mem_splitTabList raw.data c hc with h1 | ⟨p, hp, hcp⟩
  · subst h1; decide
  · -- the piece holding `c` was filtered out of `tokens`, so it strips to ""
    have hmem : (⟨p⟩ : String) ∈ pySplitTab raw := by
      simp only [pySplitTab, List.mem_map]
      exact ⟨p, hp, rfl⟩
    have hall : ∀ a ∈ pySplitTab raw, pyStrip a = "" := by
      simpa [tokens] using hnil
    have hps := hall _ hmem
    have hdata : pyStripList p = [] := by
      have := string_eq_iff_data.mp hps
      simpa [pyStrip, string_mk_data] using this
    exact (pyStripList_eq_nil_iff p).mp hdata c hcp

theorem pyUpdate_of_not_mem (acc : Record) (kv : String × String)
    (h : ∀ e ∈ acc, e.1 ≠ kv.1) : pyUpdate acc kv = acc ++ [kv] := by
  unfold pyUpdate
  have : acc.any (fun e => e.1 == kv.1) = false := by
    rw [List.any_eq_false]
    intro e he
    simpa using h e he
  simp [this]

theorem foldl_pyUpdate_of_nodup (ps : List (String × String)) :
    ∀ acc : Record, (∀ kv ∈ ps, ∀ e ∈ acc, e.1 ≠ kv.1) →
    (ps.map Prod.fst).Nodup → ps.foldl pyUpdate acc = acc ++ ps := by
  induction ps with
  | nil => intro acc _ _; simp
  | cons kv ps ih =>
    intro acc hdisj hnd
    rw [List.foldl_cons, pyUpdate_of_not_mem acc kv (hdisj kv (by simp))]
    rw [List.map_cons, List.nodup_cons] at hnd
    rw [ih (acc ++ [kv]) ?_ hnd.2]
    · simp
    · intro kv2 hkv2 e he
      rcases List.mem_append.mp he with h1 | h1
      · exact hdisj kv2 (by simp [hkv2]) e h1
      · have : e = kv := by simpa using h1
        subst this
        intro hcontra
        exact hnd.1 (hcontra ▸ List.mem_map_of_mem Prod.fst hkv2)

theorem map_fst_zip_sublist (ks : List String) (vs : List String) :
    ((ks.zip vs).map Prod.fst).Sublist ks := by
  induction ks generalizing vs with
  | nil => simp
  | cons k ks ih =>
    cases vs with
    | nil => simp
    | cons v vs => simpa using (ih vs).cons₂ k

theorem pyDict_zip_of_nodup (ks vs : List String) (h : ks.Nodup) :
    pyDict (ks.zip vs) = ks.zip vs := by
  unfold pyDict
  rw [foldl_pyUpdate_of_nodup _ [] (by simp) (h.sublist (map_fst_zip_sublist ks vs))]
  simp

theorem anyMatch_perm (rs rs' : List Reg) (h : rs.Perm rs') (f : String) :
    anyMatch rs f = anyMatch rs' f := by
  unfold anyMatch
  have hiff : ∀ (l l' : List Reg), l.Perm l' → l.any (fun r => rsearch r f) = true →
      l'.any (fun r => rsearch r f) = true := by
    intro l l' hp hl
    rw [List.any_eq_true] at hl ⊢
    rcases hl with ⟨r, hr, hs⟩
    exact ⟨r, hp.mem_iff.mp hr, hs⟩
  cases h1 : rs.any (fun r => rsearch r f) with
  | true => exact (hiff rs rs' h h1).symm
  | false =>
    cases h2 : rs'.any (fun r => rsearch r f) with
    | true => exact absurd (hiff rs' rs h.symm h2) (by simp [h1])
    | false => rfl

theorem classifyGo_congr (p q : String → Bool) (h : ∀ f, p f = q f) :
    ∀ l : List String, classifyGo p l = classifyGo q l := by
  intro l
  induction l with
  | nil => rfl
  | cons f fs ih => simp only [classifyGo, ih, h f]

theorem repairFieldsWith_perm (rs : List Reg) (h : rs.Perm NOTES_REGEXES) (raw : String) :
    repairFieldsWith rs raw = repairFieldsWith NOTES_REGEXES raw := by
  unfold repairFieldsWith
  cases tokens raw with
  | nil => rfl
  | cons nom rem =>
    simp only
    rw [classifyGo_congr (anyMatch rs) (anyMatch NOTES_REGEXES) (anyMatch_perm rs _ h)]

/-- Specification of the year scan: when `findFirstYear` succeeds there is an
index `i` such that all earlier fragments hold no four-digit run, fragment `i`
yields the year, and the returned pool is the list with entry `i` erased. -/
theorem findFirstYear_spec (l : List String) (y : String) (rest : List String)
    (h : findFirstYear l = some (y, rest)) :
    ∃ i, ∃ hi : i < l.length,
      extractYear (l.get ⟨i, hi⟩).data = some y ∧
      (∀ j, ∀ hj : j < l.length, j < i → extractYear (l.get ⟨j, hj⟩).data = none) ∧
      rest = l.eraseIdx i := by
  induction l generalizing y rest with
  | nil => simp [findFirstYear] at h
  | cons f fs ih =>
    rw [findFirstYear] at h
    cases hf : extractYear f.data with
    | some y0 =>
      rw [hf] at h
      simp only [Option.some.injEq, Prod.mk.injEq] at h
      refine ⟨0, by simp, ?_, ?_, ?_⟩
      · simpa [h.1] using hf
      · intro j hj hj0; omega
      · simp [h.2.symm, List.eraseIdx]
    | none =>
      rw [hf] at h
      cases hr : findFirstYear fs with
      | none => rw [hr] at h; simp at h
      | some pr =>
        rw [hr] at h
        rcases pr with ⟨y1, rest1⟩
        simp only [Option.some.injEq, Prod.mk.injEq] at h
        rcases ih y1 rest1 hr with ⟨i, hi, hy, hbefore, herase⟩
        refine ⟨i + 1, by simpa using Nat.succ_lt_succ hi, ?_, ?_, ?_⟩
        · simpa [h.1] using hy
        · intro j hj hji
          cases j with
          | zero => simpa using hf
          | succ j2 =>
            have hj2 : j2 < fs.length := by simpa using hj
            have := hbefore j2 hj2 (by omega)
            simpa using this
        · rw [← h.2, herase]
          simp [List.eraseIdx]

theorem repairFieldsWith_length (rs : List Reg) (raw : String) (h : tokens raw ≠ []) :
    (repairFieldsWith rs raw).length = 5 := by
  unfold repairFieldsWith
  cases htok : tokens raw with
  | nil => exact absurd htok h
  | cons nom rem => simp

theorem adjustFields_length_ge (fs : List String) (h : Nat) :
    h ≤ (adjustFields fs h).length := by
  unfold adjustFields
  split
  · simp only [List.length_append, List.length_replicate]
    omega
  · split
    · simp only [List.length_take]
      omega
    · omega

theorem repairLineWith_of_ne_nil (rs : List Reg) (raw : String) (headers : List String)
    (hh : headers ≠ []) (ht : tokens raw ≠ []) :
    repairLineWith rs raw headers =
      some (pyDict (headers.zip (adjustFields (repairFieldsWith rs raw) headers.length))) := by
  unfold repairLineWith
  have h1 : headers.isEmpty = false := by simpa [List.isEmpty_iff] using hh
  have h2 : (tokens raw).isEmpty = false := by simpa [List.isEmpty_iff] using ht
  simp [h1, h2]

theorem repairLineWith_eq_of_perm (rs : List Reg) (h : rs.Perm NOTES_REGEXES)
    (raw : String) (headers : List String) :
    repairLineWith rs raw headers = repair_line raw headers := by
  unfold repair_line repairLineWith
  rw [repairFieldsWith_perm rs h raw]

theorem filter_not_partition (p : α → Bool) (l : List α) :
    (l.filter p).length + (l.filter (fun a => !p a)).length = l.length := by
  induction l with
  | nil => simp
  | cons a as ih =>
    cases hp : p a <;> simp [List.filter_cons, hp] <;> omega

theorem uploaderScan_conservation (resume : Bool) (existing : String → Bool)
    (findImg : String → String → Option String) (rows : List BRow) :
    (uploaderScan resume existing findImg rows).1 +
    (uploaderScan resume existing findImg rows).2.1.length +
    (uploaderScan resume existing findImg rows).2.2.length = rows.length := by
  induction rows with
  | nil => simp [uploaderScan]
  | cons r rs ih =>
    rw [uploaderScan]
    split
    · simpa using by omega
    · split <;> simp <;> omega

theorem stepLine_isSome (headers : List String) (offset : Nat) (raw : String)
    (hh : headers ≠ []) : (stepLine headers offset raw).isSome = true := by
  unfold stepLine
  by_cases h1 : pyStrip raw = ""
  · simp [h1]
  · rw [if_neg h1]
    by_cases h2 : countTab raw = expectedTabsOf headers
    · rw [if_pos h2]
      have hlen : (pySplitTab raw).length = headers.length := by
        rw [pySplitTab_length, h2]
        unfold expectedTabsOf
        have : 1 ≤ headers.length := List.length_pos.mpr hh
        omega
      simp [hlen]
    · rw [if_neg h2]
      cases repair_line raw headers <;> simp

theorem processDataLines_isSome (headers : List String) (hh : headers ≠ []) :
    ∀ (offset : Nat) (lines : List String),
    (processDataLines headers offset lines).isSome = true := by
  intro offset lines
  induction lines generalizing offset with
  | nil => simp [processDataLines]
  | cons raw rest ih =>
    rw [processDataLines]
    have h1 := stepLine_isSome headers offset raw hh
    cases hs : stepLine headers offset raw with
    | none => rw [hs] at h1; simp at h1
    | some p =>
      have h2 := ih (offset + 1)
      cases hp : processDataLines headers (offset + 1) rest with
      | none => rw [hp] at h2; simp at h2
      | some q => simp

theorem headerChoice_ne_nil (l0 : String) (rest : List String) (h : l0 ≠ "") :
    (headerChoice l0 rest).1 ≠ [] := by
  unfold headerChoice
  split
  · simp [DEFAULT_HEADERS]
  · exact csvParseLine_ne_nil l0 h

/-! ### Claims -/

/-- C1 (counterexample): `repair_line` does fail to produce a record on some
input: the line `"\t"` has no non-empty token, and `repair_line` returns
`None` on it even though the header list is non-empty. -/
theorem C1_counterexample : repair_line "\t" ["nom"] = none := by decide

/-- C1 (amended): `repair_line` never raises (it is a total function), and on
every line holding at least one non-whitespace character it returns a record
whenever the header list is non-empty; on an empty header list (which
`read_tsv` does pass it when the file's first line is blank) or an
all-whitespace line it returns `None`, which `read_tsv` records as a failed
issue — so there is a per-line give-up outcome after all. -/
theorem C1_repair_line_total (raw : String) (headers : List String)
    (hh : headers ≠ []) (hs : pyStrip raw ≠ "") :
    (repair_line raw headers).isSome = true := by
  unfold repair_line repairLineWith
  have h1 : headers.isEmpty = false := by simpa [List.isEmpty_iff] using hh
  have h2 : (tokens raw).isEmpty = false := by
    simpa [List.isEmpty_iff] using tokens_ne_nil_of_strip raw hs
  simp [h1, h2]

/-- C1 (witness): the theorem applied at the line `"x"` and headers
`["nom"]`. -/
theorem C1_witness :
    (["nom"] : List String) ≠ [] ∧ pyStrip "x" ≠ "" ∧
    (repair_line "x" ["nom"]).isSome = true :=
  ⟨by decide, by decide, C1_repair_line_total "x" ["nom"] (by decide) (by decide)⟩

/-- C2 (counterexample): with the duplicated header list `["nom", "nom"]` the
record produced for the malformed line `"a\tb"` has one field (Python's
`dict` collapses equal keys), not two as the header's field count demands. -/
theorem C2_counterexample :
    repair_line "a\tb" ["nom", "nom"] = some [("nom", "")] ∧
    ([("nom", "")] : Record).length ≠ (["nom", "nom"] : List String).length := by
  constructor
  · decide
  · decide

/-- C2 (amended): for every non-empty header list with pairwise-distinct
names and every line with a non-empty token, `repair_line` returns the record
zipping the headers with the five assembled fields padded by empty strings
(the explicit truncation branch of the source is dead; a shorter header
truncates through `zip`), and that record's field count equals the header's
field count. -/
theorem C2_field_count (headers : List String) (raw : String)
    (hh : headers ≠ []) (hnd : headers.Nodup) (ht : tokens raw ≠ []) :
    repair_line raw headers =
      some (headers.zip (adjustFields (repairFieldsWith NOTES_REGEXES raw) headers.length)) ∧
    (headers.zip (adjustFields (repairFieldsWith NOTES_REGEXES raw) headers.length)).length =
      headers.length := by
  constructor
  · rw [repair_line, repairLineWith_of_ne_nil NOTES_REGEXES raw headers hh ht,
      pyDict_zip_of_nodup _ _ hnd]
  · rw [List.length_zip]
    have h1 := adjustFields_length_ge (repairFieldsWith NOTES_REGEXES raw) headers.length
    omega

/-- C2 (witness): the theorem applied at the default headers and the line
`"a\tb"`. -/
theorem C2_witness :
    repair_line "a\tb" DEFAULT_HEADERS =
      some (DEFAULT_HEADERS.zip (adjustFields (repairFieldsWith NOTES_REGEXES "a\tb")
        DEFAULT_HEADERS.length)) ∧
    (DEFAULT_HEADERS.zip (adjustFields (repairFieldsWith NOTES_REGEXES "a\tb")
        DEFAULT_HEADERS.length)).length = DEFAULT_HEADERS.length :=
  C2_field_count DEFAULT_HEADERS "a\tb" (by decide) (by decide) (by decide)

set_option synthInstance.maxSize 1000 in
/-- C3 (counterexample): two failures of the claim as stated.  First, for the
file `"nom\tnom\nx\ty"` the data line `"x\ty"` has the expected tab count, yet
its record is `[("nom", "y")]` — not the tab-split substrings `"x", "y"`
mapped to the headers in order, because the duplicated header collapses the
dict.  Second, the line `" "` is non-empty and has the expected tab count for
a one-column header, yet it is skipped entirely (no record) because only its
whitespace content is tested. -/
theorem C3_counterexample :
    (read_tsv "nom\tnom\nx\ty" = some (["nom", "nom"], [[("nom", "y")]], []) ∧
      [("nom", "y")] ≠ [("nom", "x"), ("nom", "y")]) ∧
    stepLine ["nom"] 2 " " = some ([], []) := by
  refine ⟨⟨by decide, by decide⟩, by decide⟩

/-- C3 (amended): for every data line with some non-whitespace character
whose tab count equals the header's field count minus one, given a non-empty
header list of pairwise-distinct names, the reader contributes exactly the
record zipping the headers with the tab-split substrings in order, and
reports zero issues for that line. -/
theorem C3_wellformed_passthrough (headers : List String) (offset : Nat) (raw : String)
    (hh : headers ≠ []) (hnd : headers.Nodup) (hs : pyStrip raw ≠ "")
    (hc : countTab raw = headers.length - 1) :
    stepLine headers offset raw = some ([headers.zip (pySplitTab raw)], []) := by
  unfold stepLine
  rw [if_neg hs]
  have hexp : expectedTabsOf headers = headers.length - 1 := by
    unfold expectedTabsOf; omega
  rw [hexp, if_pos hc]
  have hlen : (pySplitTab raw).length = headers.length := by
    rw [pySplitTab_length, hc]
    have : 1 ≤ headers.length := List.length_pos.mpr hh
    omega
  rw [if_pos hlen, pyDict_zip_of_nodup _ _ hnd]

/-- C3 (witness): the theorem applied at the default headers and the line
`"a\tb\tc\td\te"`. -/
theorem C3_witness :
    stepLine DEFAULT_HEADERS 2 "a\tb\tc\td\te" =
      some ([DEFAULT_HEADERS.zip (pySplitTab "a\tb\tc\td\te")], []) :=
  C3_wellformed_passthrough DEFAULT_HEADERS 2 "a\tb\tc\td\te"
    (by decide) (by decide) (by decide) (by decide)

/-- C4 (counterexample): the claim asserts an input whose repaired record
changes when the regex list is reordered; no such input exists, because the
classification step asks only whether *any* regex matches, which is invariant
under every permutation of the list. -/
theorem C4_counterexample :
    ¬ ∃ (rs : List Reg) (raw : String) (headers : List String),
        rs.Perm NOTES_REGEXES ∧ repairLineWith rs raw headers ≠ repair_line raw headers := by
  rintro ⟨rs, raw, headers, hperm, hne⟩
  exact hne (repairLineWith_eq_of_perm rs hperm raw headers)

/-- C4 (amended): the notes/address classification is order-insensitive — the
fragment test is `any(regex.search(fragment) for regex in NOTES_REGEXES)`, so
for every reordering of the regex list the repaired record is unchanged on
every input. -/
theorem C4_order_insensitive (rs : List Reg) (raw : String) (headers : List String)
    (h : rs.Perm NOTES_REGEXES) :
    repairLineWith rs raw headers = repair_line raw headers :=
  repairLineWith_eq_of_perm rs h raw headers

/-- C4 (witness): the theorem applied to the reversed regex list on a line
whose fragment matches several overlapping patterns. -/
theorem C4_witness :
    repairLineWith NOTES_REGEXES.reverse "Dupont\tM. des Hop., 3 rue X" DEFAULT_HEADERS =
      repair_line "Dupont\tM. des Hop., 3 rue X" DEFAULT_HEADERS :=
  C4_order_insensitive NOTES_REGEXES.reverse _ _ (List.reverse_perm NOTES_REGEXES)

/-- C5: when the token pool scanned for a year (the tokens after the leading
name token, repair.py lines 145-151) holds a token with four consecutive
digits, the year field of the assembled record is exactly the leftmost
four-digit run of the first such token, every earlier pool token holds no
four-digit run, and the matching token is erased from the pool before the
hours scan and the notes/address classification — so that token occurrence
feeds neither the notes field nor the address field. -/
theorem C5_year_first_token (raw : String) (nom : String) (rem : List String)
    (y : String) (rest : List String)
    (htok : tokens raw = nom :: rem) (hy : findFirstYear rem = some (y, rest)) :
    (∃ i, ∃ hi : i < rem.length,
       extractYear (rem.get ⟨i, hi⟩).data = some y ∧
       (∀ j, ∀ hj : j < rem.length, j < i → extractYear (rem.get ⟨j, hj⟩).data = none) ∧
       rest = rem.eraseIdx i) ∧
    repairFieldsWith NOTES_REGEXES raw =
      [nom, y,
       joinComma (classifyGo matchesNotes
         (match extractLastHoraires rest with | some (_, r2) => r2 | none => rest)).1,
       joinComma (classifyGo matchesNotes
         (match extractLastHoraires rest with | some (_, r2) => r2 | none => rest)).2,
       match extractLastHoraires rest with | some (h, _) => h | none => ""] := by
  refine ⟨findFirstYear_spec rem y rest hy, ?_⟩
  unfold repairFieldsWith
  rw [htok]
  simp only [hy]
  cases extractLastHoraires rest <;> rfl

/-- C5 (witness): the theorem applied at the line
`"Dupont\tcree 1887\t12 rue X"`, whose second token carries the year 1887. -/
theorem C5_witness :
    (∃ i, ∃ hi : i < (["cree 1887", "12 rue X"] : List String).length,
       extractYear (((["cree 1887", "12 rue X"] : List String).get ⟨i, hi⟩).data) = some "1887" ∧
       (∀ j, ∀ hj : j < (["cree 1887", "12 rue X"] : List String).length, j < i →
          extractYear (((["cree 1887", "12 rue X"] : List String).get ⟨j, hj⟩).data) = none) ∧
       ["12 rue X"] = (["cree 1887", "12 rue X"] : List String).eraseIdx i) ∧
    repairFieldsWith NOTES_REGEXES "Dupont\tcree 1887\t12 rue X" =
      ["Dupont", "1887",
       joinComma (classifyGo matchesNotes
         (match extractLastHoraires ["12 rue X"] with | some (_, r2) => r2 | none => ["12 rue X"])).1,
       joinComma (classifyGo matchesNotes
         (match extractLastHoraires ["12 rue X"] with | some (_, r2) => r2 | none => ["12 rue X"])).2,
       match extractLastHoraires ["12 rue X"] with | some (h, _) => h | none => ""] :=
  C5_year_first_token "Dupont\tcree 1887\t12 rue X" "Dupont" ["cree 1887", "12 rue X"]
    "1887" ["12 rue X"] (by decide) (by decide)

/-- C6 (code bug): the claim's own example fails on the code as written.  The
token `"Anc. Int. Hôp., 12 rue de la Paix"` matches none of the compiled
`NOTES_REGEXES`, because the source file is double-encoded: the hospital class
is literally `H[Ă´o0]p` (U+0102, U+00B4), which matches neither `Hôp` nor the
mojibake `HĂ´p`.  The whole token therefore lands in the address field and the
notes field stays empty, instead of splitting at the comma into notes
`"Anc. Int. Hôp."` and address `"12 rue de la Paix"`. -/
theorem C6_mojibake_no_split :
    repair_line "Dupont\tAnc. Int. Hôp., 12 rue de la Paix" DEFAULT_HEADERS =
      some [("nom", "Dupont"), ("annĂ©e", ""), ("notes", ""),
            ("adresse", "Anc. Int. Hôp., 12 rue de la Paix"), ("horaires", "")] ∧
    matchesNotes "Anc. Int. Hôp., 12 rue de la Paix" = false := by
  exact ⟨by decide, by decide⟩

/-- C7 (code bug): the image uploader produces a `custom_id` from a row with
an empty year.  For the single row (year `""`, page `"5"`) the uploader's row
loop — which, unlike the two builders, has no empty-year/page guard — emits
the id `"-5"` (here into the missing-image list, since no image exists),
while the text-only and the multimodal builders skip the same row. -/
theorem C7_uploader_no_skip :
    uploaderScan false (fun _ => false) (fun _ _ => none) [⟨"", "5", "ocr"⟩] =
      (0, ["-5"], []) ∧
    buildBatchRequests [⟨"", "5", "ocr"⟩] = [] ∧
    geminiBuild (fun _ _ => none) [⟨"", "5", "ocr"⟩] = ([], [], 0) := by
  exact ⟨by decide, by decide, by decide⟩

/-- C8 (counterexample): the text-only builder silently swallows skipped
rows: the row (year `""`, page `"5"`) is skipped by the builder's own guard,
yet the script's entire printed summary — the request count of line 108 — is
identical to the summary of the empty input, so the skipped row is counted in
no printed tally. -/
theorem C8_counterexample :
    pyStrip (BRow.mk "" "5" "ocr").year = "" ∧
    buildBatchSummary [⟨"", "5", "ocr"⟩] = buildBatchSummary [] := by
  exact ⟨by decide, by decide⟩

/-- C8 (amended): the image uploader's final summary accounts for every row:
with the default `--limit` of `None`, uploaded + resume-skipped + failed +
missing-image always equals the number of rows read, whatever the resume
state, the filesystem and the upload outcomes; the text-only builder, by
contrast, prints no tally of the rows it skips (its summary is unchanged by
them, as the counterexample shows). -/
theorem C8_uploader_accounting (resume : Bool) (existing : String → Bool)
    (findImg : String → String → Option String) (success : String → Bool)
    (rows : List BRow) :
    (uploaderSummary resume existing findImg success rows).1 +
    (uploaderSummary resume existing findImg success rows).2.1 +
    (uploaderSummary resume existing findImg success rows).2.2.1 +
    (uploaderSummary resume existing findImg success rows).2.2.2 = rows.length := by
  unfold uploaderSummary uploadCounts
  have h1 := uploaderScan_conservation resume existing findImg rows
  have h2 := filter_not_partition (fun f : String × String => success f.1)
    (uploaderScan resume existing findImg rows).2.2
  simp only at h2 ⊢
  omega

set_option synthInstance.maxSize 1000 in
/-- C9 (counterexample): `read_tsv` is not total, and the assertion does not
hold when the header row parses to zero columns.  For the file `"\nx"` the
empty first line parses to the empty row, so the header list is empty and
the expected tab count is zero; the data line `"x"` has zero tabs — the
matching count — but splits into one value, so the assertion
`len(values) == len(headers)` fails and the Python `read_tsv` raises
`AssertionError` (reproduced on the source; modelled here as `none`). -/
theorem C9_counterexample :
    read_tsv "\nx" = none ∧ csvParseLine "" = [] := by
  exact ⟨by decide, by decide⟩

/-- C9 (amended): the data-line loop is safe whenever the header row parses
to at least one column — that is, whenever the file's first line is
non-empty: `read_tsv` then returns a result on every decoded text, the
assertion holding on every matching data line because the split yields
exactly as many values as there are headers.  And every non-blank data line
with a mismatched tab count is recorded as an issue (with its offset, tab
count, raw text and repair outcome) while processing continues.  When the
first line is empty the header list is empty and a non-blank zero-tab data
line fails the assertion, as the counterexample shows. -/
theorem C9_total_of_header :
    (∀ (text : String) (l0 : String) (rest : List String),
       pySplitlines (stripBOM text) = l0 :: rest → l0 ≠ "" →
       (read_tsv text).isSome = true) ∧
    (∀ (headers : List String) (offset : Nat) (raw : String),
       pyStrip raw ≠ "" → countTab raw ≠ expectedTabsOf headers →
       ∃ success rows, stepLine headers offset raw =
         some (rows, [(offset, countTab raw, raw, success)])) := by
  constructor
  · intro text l0 rest hsplit hne
    unfold read_tsv
    rw [hsplit]
    have := processDataLines_isSome (headerChoice l0 rest).1
      (headerChoice_ne_nil l0 rest hne) (headerChoice l0 rest).2.2 (headerChoice l0 rest).2.1
    cases hp : processDataLines (headerChoice l0 rest).1
        (headerChoice l0 rest).2.2 (headerChoice l0 rest).2.1 with
    | none => rw [hp] at this; simp at this
    | some p => simp [hp]
  · intro headers offset raw hs hc
    unfold stepLine
    rw [if_neg hs, if_neg hc]
    cases repair_line raw headers with
    | none => exact ⟨false, [], rfl⟩
    | some r => exact ⟨true, [r], rfl⟩

/-- C9 (witness): the first part applied at the file `"nom\tx\na\tb"` (whose
first line is non-empty), the second at headers `["nom"]` and the mismatched
line `"a\tb"`. -/
theorem C9_witness :
    (read_tsv "nom\tx\na\tb").isSome = true ∧
    (∃ success rows, stepLine ["nom"] 3 "a\tb" =
       some (rows, [(3, 1, "a\tb", success)])) :=
  ⟨C9_total_of_header.1 "nom\tx\na\tb" "nom\tx" ["a\tb"] (by decide) (by decide),
   C9_total_of_header.2 ["nom"] 3 "a\tb" (by decide) (by decide)⟩

set_option synthInstance.maxSize 1000 in
/-- C10 (code bug): a five-column first line that consists of one of the five
expected header names is *not* consumed as a header row.  The header test
lowercases each candidate field but compares it against a set holding the
double-encoded literal `"annĂ©e"`, which is not lowercase (Python lowers its
`Ă` to `ă`), so neither the intended name `"année"` nor the source's own
literal `"annĂ©e"` is ever recognized: for both first lines below, `read_tsv`
substitutes the default headers and treats the first line as a data row. -/
theorem C10_header_name_unrecognized :
    read_tsv "année\tb\tc\td\te" =
      some (DEFAULT_HEADERS,
        [[("nom", "année"), ("annĂ©e", "b"), ("notes", "c"),
          ("adresse", "d"), ("horaires", "e")]], []) ∧
    looks_like_header ["année"] = false ∧
    looks_like_header ["annĂ©e"] = false ∧
    DEFAULT_HEADERS.contains "annĂ©e" = true := by
  exact ⟨by decide, by decide, by decide, by decide⟩

end Pipeline


